import Mathlib

/-!
Shallow embedding of the CV-processing workflow client
(`src/demonstration/app.py`) and verification of its specification claims.

Strings are modelled through their character lists (`String.data`), so that
the Python text operations used by the client — `str.split(",")`,
`str.strip()`, `", ".join(...)`, `str.isdigit()`, `int(...)` — become
executable Lean functions amenable to induction.
-/

/-- Whitespace characters stripped by Python `str.strip()` (ASCII range:
space, tab, newline, carriage return, vertical tab, form feed). -/
def pyIsSpace (c : Char) : Bool :=
  c = ' ' || c = '\t' || c = '\n' || c = '\r' || c.toNat = 11 || c.toNat = 12

/-- Embedding of Python `str.strip()`: drop whitespace from both ends. -/
def stripCS (l : List Char) : List Char :=
  ((l.dropWhile pyIsSpace).reverse.dropWhile pyIsSpace).reverse

/-- Embedding of Python `str.split(",")`: split at every comma, keeping
empty pieces; the empty string yields one empty piece. -/
def splitCommaCS : List Char → List (List Char)
  | [] => [[]]
  | c :: cs =>
    if c = ',' then [] :: splitCommaCS cs
    else
      match splitCommaCS cs with
      | [] => [[c]]
      | t :: ts => (c :: t) :: ts

/-- Embedding of Python `", ".join(...)` at the character-list level. -/
def pyJoinCS : List (List Char) → List Char
  | [] => []
  | [x] => x
  | x :: y :: ys => x ++ ',' :: ' ' :: pyJoinCS (y :: ys)

/-- Embedding of Python `str.isdigit()` for ASCII text: non-empty and all
decimal digits. -/
def pyIsDigitCS (l : List Char) : Bool :=
  !l.isEmpty && l.all Char.isDigit

/-- Numeric value of a list of decimal digit characters. -/
def digitsToNat (l : List Char) : Nat :=
  l.foldl (fun n c => n * 10 + (c.toNat - 48)) 0

/-- Model of Python `int(s)` on optionally signed decimal digit strings
(surrounding whitespace is ignored, as Python does). On malformed input
Python raises; this total model is only applied under guards that ensure the
input is well formed. -/
def pyIntCS (l : List Char) : Int :=
  if (stripCS l).head? = some '-' then -(digitsToNat ((stripCS l).drop 1) : Int)
  else if (stripCS l).head? = some '+' then (digitsToNat ((stripCS l).drop 1) : Int)
  else (digitsToNat (stripCS l) : Int)

/-- Predicate of Python `int(s)` succeeding: after stripping whitespace, an
optional single sign followed by a non-empty run of decimal digits. Used to
express the specification wording "tokens that parse as integers". -/
def pyIntParses (l : List Char) : Bool :=
  match stripCS l with
  | [] => false
  | '-' :: ds => !ds.isEmpty && ds.all Char.isDigit
  | '+' :: ds => !ds.isEmpty && ds.all Char.isDigit
  | ds => ds.all Char.isDigit

/-- Embedding of Python `s.strip()` on `String`. -/
def pyStrip (s : String) : String := ⟨stripCS s.data⟩

/-- Embedding of Python `", ".join(xs)` on `String`. -/
def pyJoin (xs : List String) : String := ⟨pyJoinCS (xs.map String.data)⟩

/-- Embedding of `", ".join(map(str, xs))` for integer lists (rendering of
`minutesOfRoad` and `onSiteDays` in the form). -/
def pyJoinInts (xs : List Int) : String := pyJoin (xs.map toString)

/-- Stripped non-empty comma tokens of a character list: the list
comprehension `[s.strip() for s in text.split(",") if s.strip()]`. -/
def tokensCS (l : List Char) : List (List Char) :=
  ((splitCommaCS l).map stripCS).filter (fun t => !t.isEmpty)

/-- Embedding of `[s.strip() for s in text.split(",") if s.strip()]`
(the `hardSkills` / `targetRoles` submit translation, app.py lines 87, 91). -/
def strListOfText (s : String) : List String :=
  (tokensCS s.data).map String.mk

/-- Embedding of `[int(s) for s in text.split(",") if s.strip().isdigit()]`
(the `minutesOfRoad` / `onSiteDays` submit translation, app.py lines 95-96). -/
def intListOfText (s : String) : List Int :=
  ((splitCommaCS s.data).filter (fun t => pyIsDigitCS (stripCS t))).map pyIntCS

/-- Modelled from the spec wording for claim C3 ("tokens that parse as
integers"): keeps every comma token accepted by Python `int(...)`, in
order, mapped to its integer value. This is the spec-side reading, to be
compared against the code-side `intListOfText`. -/
def spec_intList (s : String) : List Int :=
  ((splitCommaCS s.data).filter (fun t => pyIntParses t)).map pyIntCS

/-!
The workflow state machine: the Streamlit session state together with the
three step handlers (upload, extract, submit). Each handler is a pure
function of the state before the call and the HTTP response, returning the
state after the call and the message shown to the user, mirroring the
`if response.ok: ... else: st.error(...)` blocks of app.py.
-/

/-- The extraction response record (`CandidateProfile`-shaped, every field
possibly absent), as consumed by `extract_data.get(...)` in app.py. -/
structure ExtractData where
  name : Option String := none
  employmentStatus : Option Bool := none
  currentEmployer : Option String := none
  currentPosition : Option String := none
  age : Option Nat := none
  location : Option String := none
  recruiterName : Option String := none
  contactName : Option String := none
  hardSkills : Option (List String) := none
  experienceDescription : Option String := none
  yearsOfExperience : Option Nat := none
  graduationStatus : Option Bool := none
  degree : Option String := none
  targetRoles : Option (List String) := none
  ambitions : Option String := none
  travelMode : Option String := none
  minutesOfRoad : Option (List Int) := none
  onSiteDays : Option (List Int) := none
  grossSalary : Option Nat := none
  salaryPeriod : Option String := none
  hoursAWeek : Option Nat := none
  jobDescriptionText : Option String := none

/-- The Streamlit session state: `st.session_state['cv_key']` and
`st.session_state['extract_data']`, both absent at session start. -/
structure Session where
  cv_key : Option String
  extract_data : Option ExtractData

/-- Message surfaced to the user by a step (`st.success` / `st.error`). -/
inductive StepMsg where
  | success (m : String)
  | error (m : String)
deriving DecidableEq

/-- HTTP response to the upload call: `ok` is `response.ok` (2xx), `text`
is `response.text`, and `key` is the `key` field of the parsed JSON body
(only read in the success branch). -/
structure UploadResponse where
  ok : Bool
  text : String
  key : String

/-- HTTP response to the extract call; `data` is the parsed JSON body
(only read in the success branch). -/
structure ExtractResponse where
  ok : Bool
  text : String
  data : ExtractData

/-- HTTP response to the submit call. -/
structure SubmitResponse where
  ok : Bool
  text : String

/-- Step 1 of app.py: on 2xx store the response's `key` as `cv_key` and
report success; otherwise leave the session unchanged and report
"Upload failed: " followed by the response text. -/
def upload_step (st : Session) (r : UploadResponse) : Session × StepMsg :=
  if r.ok then
    ({ st with cv_key := some r.key }, StepMsg.success ("File uploaded! Key: " ++ r.key))
  else
    (st, StepMsg.error ("Upload failed: " ++ r.text))

/-- Gate of step 2: `cv_key = st.session_state.get('cv_key', '')` followed
by `if cv_key:` — Python truthiness of the stored string. -/
def extract_enabled (st : Session) : Bool :=
  st.cv_key.getD "" ≠ ""

/-- Step 2 of app.py: on 2xx store the parsed body as `extract_data` and
report success; otherwise leave the session unchanged and report
"Extraction failed: " followed by the response text. -/
def extract_step (st : Session) (r : ExtractResponse) : Session × StepMsg :=
  if r.ok then
    ({ st with extract_data := some r.data }, StepMsg.success "Data extracted!")
  else
    (st, StepMsg.error ("Extraction failed: " ++ r.text))

/-- Gate of step 3: `if extract_data:` on the stored extraction record. -/
def submit_enabled (st : Session) : Bool :=
  st.extract_data.isSome

/-- Step 3 of app.py (the network part): the submit call never mutates the
session; on 2xx it reports success, otherwise "Submission failed: "
followed by the response text. -/
def submit_step (st : Session) (r : SubmitResponse) : Session × StepMsg :=
  if r.ok then
    (st, StepMsg.success "CV submitted successfully!")
  else
    (st, StepMsg.error ("Submission failed: " ++ r.text))

/-!
The review/edit form and the submit payload. A `Form` holds the values of
the Streamlit widgets at submit time; `submit_payload` mirrors the
`submit_payload = { ... }` dictionary literal of app.py as an ordered
association list of JSON values.
-/

/-- Dropdown options `salary_period_options` of app.py line 49. -/
def salary_period_options : List String := ["year", "month"]

/-- Dropdown options `travel_mode_options` of app.py line 50. -/
def travel_mode_options : List String :=
  ["car", "public transport", "bicycle", "on walk"]

/-- Options offered by the travel-mode selectbox: `[""] + travel_mode_options`
(app.py line 68), the blank entry meaning "no selection". -/
def travel_selectbox_options : List String := "" :: travel_mode_options

/-- Dropdown options `hours_a_week_options` of app.py line 51. -/
def hours_a_week_options : List Nat := [8, 16, 24, 32, 40]

/-- Modelled from the spec wording for claim C5: the declared enum value
set of `travelMode` ("car | public-transport | bicycle | on-foot"), to be
compared against the code-side `travel_mode_options`. -/
def spec_travel_modes : List String :=
  ["car", "public-transport", "bicycle", "on-foot"]

/-- Values of the form widgets at submit time. Text areas holding
comma-separated lists are kept as their raw edited text; `travelMode` is
the selectbox value, `""` meaning no selection; numeric inputs with
`min_value=0` are naturals. -/
structure Form where
  candidateName : String
  employmentStatus : Bool
  currentEmployer : String
  currentPosition : String
  age : Nat
  location : String
  recruiterName : String
  contactName : String
  hardSkills : String
  experienceDescription : String
  yearsOfExperience : Nat
  graduationStatus : Bool
  degree : String
  targetRoles : String
  ambitions : String
  travelMode : String
  minutesOfRoad : String
  onSiteDays : String
  grossSalary : Nat
  salaryPeriod : String
  hoursAWeek : Nat
  jobDescriptionText : String

/-- JSON values carried by the submit payload. -/
inductive Json where
  | null
  | str (s : String)
  | int (n : Int)
  | bool (b : Bool)
  | arr (xs : List Json)

/-- Python `s or None` for strings: the empty string becomes JSON null,
anything else is carried as-is. -/
def orNone (s : String) : Json :=
  if s = "" then Json.null else Json.str s

/-- The `submit_payload` dictionary of app.py lines 78-101, in source
order, as an association list from JSON keys to JSON values. -/
def submit_payload (f : Form) : List (String × Json) :=
  [("candidateName", Json.str f.candidateName),
   ("employmentStatus", Json.bool f.employmentStatus),
   ("currentEmployer", orNone f.currentEmployer),
   ("currentPosition", orNone f.currentPosition),
   ("age", Json.int f.age),
   ("location", Json.str f.location),
   ("recruiterName", Json.str f.recruiterName),
   ("contactName", Json.str f.contactName),
   ("hardSkills", Json.arr ((strListOfText f.hardSkills).map Json.str)),
   ("experienceDescription", Json.str f.experienceDescription),
   ("yearsOfExperience", Json.int f.yearsOfExperience),
   ("graduationStatus", Json.bool f.graduationStatus),
   ("degree", orNone f.degree),
   ("targetRoles", Json.arr ((strListOfText f.targetRoles).map Json.str)),
   ("ambitions", orNone f.ambitions),
   ("travelMode", if f.travelMode = "" then Json.null else Json.str f.travelMode),
   ("minutesOfRoad", Json.arr ((intListOfText f.minutesOfRoad).map Json.int)),
   ("onSiteDays", Json.arr ((intListOfText f.onSiteDays).map Json.int)),
   ("grossSalary", Json.int f.grossSalary),
   ("salaryPeriod", Json.str f.salaryPeriod),
   ("hoursAWeek", Json.int f.hoursAWeek),
   ("jobDescriptionText", orNone f.jobDescriptionText)]

/-- Travel-mode selectbox initial value (app.py line 68): index 0 (the
blank entry) when the extracted value is absent or falsy, otherwise entry
`travel_mode_options.index(value) + 1` of `[""] + travel_mode_options`;
`none` models the `ValueError` raised when the value is not an option. -/
def init_travelMode (tm : Option String) : Option String :=
  match tm with
  | none => some (travel_selectbox_options.getD 0 "")
  | some t =>
    if t = "" then some (travel_selectbox_options.getD 0 "")
    else
      match travel_mode_options.findIdx? (fun y => y == t) with
      | some i => some (travel_selectbox_options.getD (i + 1) "")
      | none => none

/-- Salary-period selectbox initial value (app.py line 72): index
`salary_period_options.index(value)` when the extracted value is truthy,
index 0 otherwise; `none` models the `ValueError` on a non-option value. -/
def init_salaryPeriod (sp : Option String) : Option String :=
  match sp with
  | none => some (salary_period_options.getD 0 "")
  | some s =>
    if s = "" then some (salary_period_options.getD 0 "")
    else
      match salary_period_options.findIdx? (fun y => y == s) with
      | some i => some (salary_period_options.getD i "")
      | none => none

/-- Hours-a-week selectbox initial value (app.py line 73): index
`hours_a_week_options.index(value)` when the extracted value is truthy
(non-zero), index 0 otherwise; `none` models the `ValueError` on a
non-option value. -/
def init_hoursAWeek (hw : Option Nat) : Option Nat :=
  match hw with
  | none => some (hours_a_week_options.getD 0 0)
  | some h =>
    if h = 0 then some (hours_a_week_options.getD 0 0)
    else
      match hours_a_week_options.findIdx? (fun y => y == h) with
      | some i => some (hours_a_week_options.getD i 0)
      | none => none

/-- Initial form contents rendered from the extraction record (app.py
lines 54-76): each widget pre-populated via `extract_data.get(field,
default)`, list fields rendered as their comma-joined text. `none` models a
`ValueError` from one of the selectbox `index` computations. -/
def init_form (d : ExtractData) : Option Form := do
  let tm ← init_travelMode d.travelMode
  let sp ← init_salaryPeriod d.salaryPeriod
  let hw ← init_hoursAWeek d.hoursAWeek
  pure
    { candidateName := d.name.getD ""
      employmentStatus := d.employmentStatus.getD false
      currentEmployer := d.currentEmployer.getD ""
      currentPosition := d.currentPosition.getD ""
      age := d.age.getD 18
      location := d.location.getD ""
      recruiterName := d.recruiterName.getD ""
      contactName := d.contactName.getD ""
      hardSkills := pyJoin (d.hardSkills.getD [])
      experienceDescription := d.experienceDescription.getD ""
      yearsOfExperience := d.yearsOfExperience.getD 0
      graduationStatus := d.graduationStatus.getD false
      degree := d.degree.getD ""
      targetRoles := pyJoin (d.targetRoles.getD [])
      ambitions := d.ambitions.getD ""
      travelMode := tm
      minutesOfRoad := pyJoinInts (d.minutesOfRoad.getD [])
      onSiteDays := pyJoinInts (d.onSiteDays.getD [])
      grossSalary := d.grossSalary.getD 0
      salaryPeriod := sp
      hoursAWeek := hw
      jobDescriptionText := d.jobDescriptionText.getD "" }

/-!
Concrete values used as test vectors by the claims below.
-/

/-- A form with every text widget blank and numeric widgets at their
app.py defaults. -/
def blankForm : Form :=
  { candidateName := ""
    employmentStatus := false
    currentEmployer := ""
    currentPosition := ""
    age := 18
    location := ""
    recruiterName := ""
    contactName := ""
    hardSkills := ""
    experienceDescription := ""
    yearsOfExperience := 0
    graduationStatus := false
    degree := ""
    targetRoles := ""
    ambitions := ""
    travelMode := ""
    minutesOfRoad := ""
    onSiteDays := ""
    grossSalary := 0
    salaryPeriod := "year"
    hoursAWeek := 40
    jobDescriptionText := "" }

/-- The end-to-end scenario's extraction response:
`{name: "Ada", hardSkills: ["C++"], travelMode: "car"}`. -/
def adaExtract : ExtractData :=
  { name := some "Ada", hardSkills := some ["C++"], travelMode := some "car" }

/-- The form rendered from `adaExtract` (the fallback is never taken:
`init_form adaExtract` is `some`, as proved below). -/
def adaForm : Form := (init_form adaExtract).getD blankForm

/-- The payload submitted after the user edits only `age` to 30. -/
def adaSubmitted : List (String × Json) :=
  submit_payload { adaForm with age := 30 }

/-- A form whose optional text fields hold a single space (whitespace-only
but non-empty edits). -/
def wsForm : Form :=
  { blankForm with
    currentEmployer := " "
    currentPosition := " "
    degree := " "
    ambitions := " "
    jobDescriptionText := " " }

/-- A form with travel mode "car" selected. -/
def carForm : Form := { blankForm with travelMode := "car" }

/-!
Helper lemmas. The `lookup_*` lemmas read one entry off the payload
association list; they hold by computation even for a symbolic form, since
all keys are literals.
-/

theorem lookup_currentEmployer (f : Form) :
    (submit_payload f).lookup "currentEmployer" = some (orNone f.currentEmployer) := rfl

theorem lookup_currentPosition (f : Form) :
    (submit_payload f).lookup "currentPosition" = some (orNone f.currentPosition) := rfl

theorem lookup_degree (f : Form) :
    (submit_payload f).lookup "degree" = some (orNone f.degree) := rfl

theorem lookup_ambitions (f : Form) :
    (submit_payload f).lookup "ambitions" = some (orNone f.ambitions) := rfl

theorem lookup_jobDescriptionText (f : Form) :
    (submit_payload f).lookup "jobDescriptionText" = some (orNone f.jobDescriptionText) := rfl

theorem lookup_travelMode (f : Form) :
    (submit_payload f).lookup "travelMode"
      = some (if f.travelMode = "" then Json.null else Json.str f.travelMode) := rfl

theorem orNone_empty : orNone "" = Json.null := rfl

theorem orNone_of_ne_empty {s : String} (h : s ≠ "") : orNone s = Json.str s := by
  simp [orNone, h]

theorem stripCS_cons_space (l : List Char) : stripCS (' ' :: l) = stripCS l := by
  have hsp : pyIsSpace ' ' = true := by decide
  simp [stripCS, List.dropWhile_cons, hsp]

theorem splitCommaCS_ne_nil (l : List Char) : splitCommaCS l ≠ [] := by
  cases l with
  | nil => simp [splitCommaCS]
  | cons c cs =>
    by_cases hc : c = ','
    · simp [splitCommaCS, hc]
    · simp only [splitCommaCS, hc, if_false]
      cases splitCommaCS cs <;> simp

theorem splitCommaCS_no_comma (l : List Char) (h : ',' ∉ l) : splitCommaCS l = [l] := by
  induction l with
  | nil => rfl
  | cons c cs ih =>
    have hc : ¬(c = ',') := fun hcc => h (hcc ▸ List.mem_cons_self c cs)
    have hcs : ',' ∉ cs := fun hm => h (List.mem_cons_of_mem c hm)
    simp [splitCommaCS, hc, ih hcs]

theorem splitCommaCS_append_comma (a rest : List Char) (h : ',' ∉ a) :
    splitCommaCS (a ++ ',' :: rest) = a :: splitCommaCS rest := by
  induction a with
  | nil => simp [splitCommaCS]
  | cons c a' ih =>
    have hc : ¬(c = ',') := fun hcc => h (hcc ▸ List.mem_cons_self c a')
    have ha' : ',' ∉ a' := fun hm => h (List.mem_cons_of_mem c hm)
    simp [splitCommaCS, hc, ih ha']

theorem tokensCS_cons_space (l : List Char) : tokensCS (' ' :: l) = tokensCS l := by
  cases hsp : splitCommaCS l with
  | nil => exact absurd hsp (splitCommaCS_ne_nil l)
  | cons t ts =>
    have h1 : splitCommaCS (' ' :: l) = (' ' :: t) :: ts := by
      simp [splitCommaCS, hsp]
    simp [tokensCS, h1, hsp, stripCS_cons_space]

/-- Round trip at the character-list level: joining pieces with ", " and
re-tokenising recovers the pieces, provided each piece is non-empty,
comma-free and already stripped. -/
theorem tokensCS_joinCS (xs : List (List Char))
    (h : ∀ x ∈ xs, x ≠ [] ∧ ',' ∉ x ∧ stripCS x = x) :
    tokensCS (pyJoinCS xs) = xs := by
  induction xs with
  | nil => rfl
  | cons x xs ih =>
    obtain ⟨hx0, hxc, hxs⟩ := h x (List.mem_cons_self x xs)
    have hxe : x.isEmpty = false := by
      cases x with
      | nil => exact absurd rfl hx0
      | cons c cs => rfl
    cases xs with
    | nil =>
      simp [pyJoinCS, tokensCS, splitCommaCS_no_comma x hxc, hxs, hxe]
    | cons y ys =>
      have htail : ∀ z ∈ y :: ys, z ≠ [] ∧ ',' ∉ z ∧ stripCS z = z := by
        intro z hz
        exact h z (List.mem_cons_of_mem x hz)
      have hj : pyJoinCS (x :: y :: ys) = x ++ ',' :: ' ' :: pyJoinCS (y :: ys) := rfl
      rw [tokensCS, hj, splitCommaCS_append_comma x _ hxc, List.map_cons,
        List.filter_cons, hxs]
      have : (!x.isEmpty) = true := by rw [hxe]; rfl
      rw [if_pos this]
      have hrest : ((splitCommaCS (' ' :: pyJoinCS (y :: ys))).map stripCS).filter
          (fun t => !t.isEmpty) = tokensCS (' ' :: pyJoinCS (y :: ys)) := rfl
      rw [hrest, tokensCS_cons_space, ih htail]

/-- Mapping over a filter is a filterMap with a guard. -/
theorem map_filter_eq_filterMap {α β : Type} (p : α → Bool) (g : α → β) (l : List α) :
    (l.filter p).map g = l.filterMap (fun a => if p a then some (g a) else none) := by
  induction l with
  | nil => rfl
  | cons a l ih =>
    by_cases h : p a <;> simp [List.filter_cons, List.filterMap_cons, h, ih]

/-- Tokens whose stripped text is all digits evaluate to non-negative
integers under Python `int`. -/
theorem pyIntCS_nonneg (l : List Char) (h : (stripCS l).all Char.isDigit = true) :
    0 ≤ pyIntCS l := by
  have hne : (stripCS l).head? ≠ some '-' ∧ (stripCS l).head? ≠ some '+' := by
    cases hs : stripCS l with
    | nil => simp
    | cons c cs =>
      rw [hs] at h
      have hc : c.isDigit = true := by
        simp only [List.all_cons, Bool.and_eq_true] at h
        exact h.1
      constructor
      · rw [List.head?_cons]
        intro hcc
        rw [Option.some.injEq] at hcc
        rw [hcc] at hc
        exact absurd hc (by decide)
      · rw [List.head?_cons]
        intro hcc
        rw [Option.some.injEq] at hcc
        rw [hcc] at hc
        exact absurd hc (by decide)
  unfold pyIntCS
  rw [if_neg hne.1, if_neg hne.2]
  exact Int.natCast_nonneg _

/-!
Claim theorems.
-/

/-- C1: for every step (upload, extract, submit) and every non-2xx
response, the session state after the call equals the session state before
the call, and the error is reported to the user; no step mutates state on
failure. -/
theorem step_failure_preserves_state (st : Session) (ru : UploadResponse)
    (re : ExtractResponse) (rs : SubmitResponse)
    (hu : ru.ok = false) (he : re.ok = false) (hs : rs.ok = false) :
    ((upload_step st ru).1 = st ∧ (upload_step st ru).2 = StepMsg.error ("Upload failed: " ++ ru.text)) ∧
    ((extract_step st re).1 = st ∧ (extract_step st re).2 = StepMsg.error ("Extraction failed: " ++ re.text)) ∧
    ((submit_step st rs).1 = st ∧ (submit_step st rs).2 = StepMsg.error ("Submission failed: " ++ rs.text)) := by
  simp [upload_step, extract_step, submit_step, hu, he, hs]

/-- Witness for C1 at a concrete session and concrete failing responses. -/
theorem step_failure_preserves_state_w :
    ((upload_step ⟨none, none⟩ ⟨false, "boom", ""⟩).1 = ⟨none, none⟩ ∧
      (upload_step ⟨none, none⟩ ⟨false, "boom", ""⟩).2 = StepMsg.error ("Upload failed: " ++ "boom")) ∧
    ((extract_step ⟨none, none⟩ ⟨false, "boom", {}⟩).1 = ⟨none, none⟩ ∧
      (extract_step ⟨none, none⟩ ⟨false, "boom", {}⟩).2 = StepMsg.error ("Extraction failed: " ++ "boom")) ∧
    ((submit_step ⟨none, none⟩ ⟨false, "boom"⟩).1 = ⟨none, none⟩ ∧
      (submit_step ⟨none, none⟩ ⟨false, "boom"⟩).2 = StepMsg.error ("Submission failed: " ++ "boom")) :=
  step_failure_preserves_state ⟨none, none⟩ ⟨false, "boom", ""⟩ ⟨false, "boom", {}⟩
    ⟨false, "boom"⟩ rfl rfl rfl

/-- C2 counterexample: a successful upload whose `key` field is the empty
string stores `cv_key = some ""`, yet the extraction gate (Python
truthiness of the stored string) stays closed, refuting "afterwards the
extraction step is enabled" for every 2xx upload. -/
theorem upload_empty_key_gate_closed :
    (upload_step ⟨none, none⟩ ⟨true, "", ""⟩).1.cv_key = some "" ∧
    extract_enabled (upload_step ⟨none, none⟩ ⟨true, "", ""⟩).1 = false := by
  decide

/-- C2 (amended): for every 2xx upload response the stored `cv_key` equals
the `key` field of the response body, and the extraction gate holds
whenever that key is non-empty. -/
theorem upload_success_sets_key_and_gate (st : Session) (r : UploadResponse)
    (h : r.ok = true) :
    (upload_step st r).1.cv_key = some r.key ∧
    (r.key ≠ "" → extract_enabled (upload_step st r).1 = true) := by
  constructor
  · simp [upload_step, h]
  · intro hk
    simp [upload_step, extract_enabled, h, hk]

/-- Witness for C2's amended theorem at a concrete non-empty key. -/
theorem upload_success_sets_key_and_gate_w :
    (upload_step ⟨none, none⟩ ⟨true, "", "k1"⟩).1.cv_key = some "k1" ∧
    extract_enabled (upload_step ⟨none, none⟩ ⟨true, "", "k1"⟩).1 = true :=
  ⟨(upload_success_sets_key_and_gate ⟨none, none⟩ ⟨true, "", "k1"⟩ rfl).1,
   (upload_success_sets_key_and_gate ⟨none, none⟩ ⟨true, "", "k1"⟩ rfl).2 (by decide)⟩

/-- C3 counterexample: the token "-5" parses as an integer under Python
`int` (the spec-side reading keeps it), but the code's digit guard
`s.strip().isdigit()` drops it from the submitted list. -/
theorem intList_drops_parsable_negative :
    spec_intList "10, -5, 20" = [10, -5, 20] ∧
    intListOfText "10, -5, 20" = [10, 20] := by
  constructor <;> decide

/-- C3 (amended): the submitted integer list contains, in order, exactly
the integer values of the comma-separated tokens whose stripped text is a
non-empty run of decimal digits (so signed numerals such as "-5" are
dropped even though they parse as integers); in particular the edited text
"10, x, 20" yields [10, 20]. -/
theorem intList_digit_tokens_in_order :
    (∀ s : String, intListOfText s =
      (splitCommaCS s.data).filterMap
        (fun t => if pyIsDigitCS (stripCS t) then some (pyIntCS t) else none)) ∧
    intListOfText "10, x, 20" = [10, 20] := by
  constructor
  · intro s
    exact map_filter_eq_filterMap _ _ _
  · decide

/-- C4: every optional text field (currentEmployer, currentPosition,
degree, ambitions, jobDescriptionText) left blank (empty edited string) is
carried in the submit payload as JSON null, never as the empty string. -/
theorem blank_optional_fields_submit_null (f : Form) :
    (f.currentEmployer = "" → (submit_payload f).lookup "currentEmployer" = some Json.null) ∧
    (f.currentPosition = "" → (submit_payload f).lookup "currentPosition" = some Json.null) ∧
    (f.degree = "" → (submit_payload f).lookup "degree" = some Json.null) ∧
    (f.ambitions = "" → (submit_payload f).lookup "ambitions" = some Json.null) ∧
    (f.jobDescriptionText = "" → (submit_payload f).lookup "jobDescriptionText" = some Json.null) := by
  refine ⟨?_, ?_, ?_, ?_, ?_⟩ <;> intro h
  · rw [lookup_currentEmployer, h, orNone_empty]
  · rw [lookup_currentPosition, h, orNone_empty]
  · rw [lookup_degree, h, orNone_empty]
  · rw [lookup_ambitions, h, orNone_empty]
  · rw [lookup_jobDescriptionText, h, orNone_empty]

/-- Witness for C4 on the all-blank form. -/
theorem blank_optional_fields_submit_null_w :
    (submit_payload blankForm).lookup "currentEmployer" = some Json.null ∧
    (submit_payload blankForm).lookup "currentPosition" = some Json.null ∧
    (submit_payload blankForm).lookup "degree" = some Json.null ∧
    (submit_payload blankForm).lookup "ambitions" = some Json.null ∧
    (submit_payload blankForm).lookup "jobDescriptionText" = some Json.null :=
  ⟨(blank_optional_fields_submit_null blankForm).1 rfl,
   (blank_optional_fields_submit_null blankForm).2.1 rfl,
   (blank_optional_fields_submit_null blankForm).2.2.1 rfl,
   (blank_optional_fields_submit_null blankForm).2.2.2.1 rfl,
   (blank_optional_fields_submit_null blankForm).2.2.2.2 rfl⟩

/-- C5 counterexample: "public transport" is one of the selectable
travel-mode options the client offers (and is carried verbatim into the
payload when selected), but it is not among the declared enum values
car | public-transport | bicycle | on-foot. -/
theorem travel_mode_option_not_declared :
    "public transport" ∈ travel_selectbox_options ∧
    "public transport" ∉ spec_travel_modes ∧
    (submit_payload { blankForm with travelMode := "public transport" }).lookup "travelMode"
      = some (Json.str "public transport") :=
  ⟨by decide, by decide, rfl⟩

/-- C5 (amended): whenever the travel-mode widget holds one of its
selectable options, the submitted travelMode is either JSON null (blank
selection) or one of the code's declared options
car | public transport | bicycle | on walk. -/
theorem travel_mode_payload_in_options (f : Form)
    (h : f.travelMode ∈ travel_selectbox_options) :
    (submit_payload f).lookup "travelMode" = some Json.null ∨
    ∃ v ∈ travel_mode_options,
      (submit_payload f).lookup "travelMode" = some (Json.str v) := by
  rw [lookup_travelMode]
  by_cases h0 : f.travelMode = ""
  · left
    simp [h0]
  · right
    refine ⟨f.travelMode, ?_, ?_⟩
    · rcases List.mem_cons.mp h with h1 | h2
      · exact absurd h1 h0
      · exact h2
    · simp [h0]

/-- Witness for C5's amended theorem with "car" selected. -/
theorem travel_mode_payload_in_options_w :
    carForm.travelMode ∈ travel_selectbox_options ∧
    ((submit_payload carForm).lookup "travelMode" = some Json.null ∨
     ∃ v ∈ travel_mode_options,
       (submit_payload carForm).lookup "travelMode" = some (Json.str v)) :=
  ⟨by decide, travel_mode_payload_in_options carForm (by decide)⟩

/-- C6 counterexample: in the Ada scenario the submitted payload has no
key `name` at all — the candidate's name travels under the key
`candidateName` — refuting "the payload includes the key `name` with value
\"Ada\"". -/
theorem ada_payload_has_no_name_key :
    (init_form adaExtract).isSome = true ∧
    adaSubmitted.lookup "name" = none ∧
    adaSubmitted.lookup "candidateName" = some (Json.str "Ada") :=
  ⟨rfl, rfl, rfl⟩

/-- C6 (amended): in the end-to-end scenario where extraction returns
name "Ada", hardSkills ["C++"], travelMode "car" and the user only changes
age to 30, the submitted payload includes candidateName "Ada" (the payload
key is `candidateName`, not `name`), hardSkills ["C++"], travelMode "car"
and age 30. -/
theorem ada_scenario_payload :
    adaSubmitted.lookup "candidateName" = some (Json.str "Ada") ∧
    adaSubmitted.lookup "hardSkills" = some (Json.arr [Json.str "C++"]) ∧
    adaSubmitted.lookup "travelMode" = some (Json.str "car") ∧
    adaSubmitted.lookup "age" = some (Json.int 30) :=
  ⟨rfl, rfl, rfl, rfl⟩

/-- C7: for every list of strings whose elements are non-empty, comma-free
and carry no surrounding whitespace, rendering the list as its
comma-joined text and re-splitting it unmodified on submit yields the same
list (the edit round trip is the identity). -/
theorem hardSkills_roundtrip (xs : List String)
    (h : ∀ x ∈ xs, x ≠ "" ∧ ',' ∉ x.data ∧ pyStrip x = x) :
    strListOfText (pyJoin xs) = xs := by
  have h' : ∀ l ∈ xs.map String.data, l ≠ [] ∧ ',' ∉ l ∧ stripCS l = l := by
    intro l hl
    rw [List.mem_map] at hl
    obtain ⟨x, hx, rfl⟩ := hl
    obtain ⟨h1, h2, h3⟩ := h x hx
    refine ⟨?_, h2, ?_⟩
    · intro hnil
      apply h1
      cases x with
      | mk d =>
        simp only at hnil
        rw [hnil]
    · have h4 := congrArg String.data h3
      simpa [pyStrip] using h4
  have key := tokensCS_joinCS (xs.map String.data) h'
  show (tokensCS (pyJoinCS (xs.map String.data))).map String.mk = xs
  rw [key, List.map_map]
  have hid : (String.mk ∘ String.data) = id := by
    funext s
    rfl
  rw [hid, List.map_id]

/-- Witness for C7 at the spec's example list ["a", "b"]. -/
theorem hardSkills_roundtrip_w :
    strListOfText (pyJoin ["a", "b"]) = ["a", "b"] :=
  hardSkills_roundtrip ["a", "b"] (by decide)

/-- C8 counterexample: on HTTP 500 with body "server error" the upload
step shows "Upload failed: server error", not exactly "server error". -/
theorem error_text_not_raw_body :
    (upload_step ⟨none, none⟩ ⟨false, "server error", ""⟩).2
      ≠ StepMsg.error "server error" := by
  decide

/-- C8 (amended): when a step's call returns HTTP 500 with body
"server error", the session state from before the call is preserved and
the user sees the body prefixed by the step's label: "Upload failed: ",
"Extraction failed: " or "Submission failed: " respectively. -/
theorem server_error_messages_labeled (st : Session) (d : ExtractData) :
    upload_step st ⟨false, "server error", ""⟩
      = (st, StepMsg.error "Upload failed: server error") ∧
    extract_step st ⟨false, "server error", d⟩
      = (st, StepMsg.error "Extraction failed: server error") ∧
    submit_step st ⟨false, "server error"⟩
      = (st, StepMsg.error "Submission failed: server error") :=
  ⟨rfl, rfl, rfl⟩

/-- C9 (implicit): every element of the submitted minutesOfRoad /
onSiteDays lists is non-negative; a negative token such as "-5" is dropped
from the submitted list even though it parses as an integer. -/
theorem intList_elements_nonneg :
    (∀ (s : String) (x : Int), x ∈ intListOfText s → 0 ≤ x) ∧
    intListOfText "7, -5" = [7] := by
  constructor
  · intro s x hx
    rw [intListOfText] at hx
    obtain ⟨t, ht, rfl⟩ := List.mem_map.mp hx
    have hguard := (List.mem_filter.mp ht).2
    have hdig : (stripCS t).all Char.isDigit = true := by
      simp only [pyIsDigitCS, Bool.and_eq_true] at hguard
      exact hguard.2
    exact pyIntCS_nonneg t hdig
  · decide

/-- Witness for C9 at the concrete edited text "7". -/
theorem intList_elements_nonneg_w :
    (7 : Int) ∈ intListOfText "7" ∧ (0 : Int) ≤ 7 :=
  ⟨by decide, intList_elements_nonneg.1 "7" 7 (by decide)⟩

/-- C10 (implicit): the blank-to-absent rule fires only on the exactly
empty edited string; a whitespace-only non-empty edit of an optional text
field is submitted as that whitespace string itself, not as null. -/
theorem whitespace_optional_fields_kept (f : Form)
    (_hce : ∀ c ∈ f.currentEmployer.data, pyIsSpace c = true)
    (_hcp : ∀ c ∈ f.currentPosition.data, pyIsSpace c = true)
    (_hdg : ∀ c ∈ f.degree.data, pyIsSpace c = true)
    (_ham : ∀ c ∈ f.ambitions.data, pyIsSpace c = true)
    (_hjd : ∀ c ∈ f.jobDescriptionText.data, pyIsSpace c = true)
    (h1 : f.currentEmployer ≠ "") (h2 : f.currentPosition ≠ "")
    (h3 : f.degree ≠ "") (h4 : f.ambitions ≠ "") (h5 : f.jobDescriptionText ≠ "") :
    (submit_payload f).lookup "currentEmployer" = some (Json.str f.currentEmployer) ∧
    (submit_payload f).lookup "currentPosition" = some (Json.str f.currentPosition) ∧
    (submit_payload f).lookup "degree" = some (Json.str f.degree) ∧
    (submit_payload f).lookup "ambitions" = some (Json.str f.ambitions) ∧
    (submit_payload f).lookup "jobDescriptionText" = some (Json.str f.jobDescriptionText) := by
  refine ⟨?_, ?_, ?_, ?_, ?_⟩
  · rw [lookup_currentEmployer, orNone_of_ne_empty h1]
  · rw [lookup_currentPosition, orNone_of_ne_empty h2]
  · rw [lookup_degree, orNone_of_ne_empty h3]
  · rw [lookup_ambitions, orNone_of_ne_empty h4]
  · rw [lookup_jobDescriptionText, orNone_of_ne_empty h5]

/-- Witness for C10 on a form whose optional text fields each hold a
single space. -/
theorem whitespace_optional_fields_kept_w :
    (submit_payload wsForm).lookup "currentEmployer" = some (Json.str " ") ∧
    (submit_payload wsForm).lookup "currentPosition" = some (Json.str " ") ∧
    (submit_payload wsForm).lookup "degree" = some (Json.str " ") ∧
    (submit_payload wsForm).lookup "ambitions" = some (Json.str " ") ∧
    (submit_payload wsForm).lookup "jobDescriptionText" = some (Json.str " ") :=
  whitespace_optional_fields_kept wsForm (by decide) (by decide) (by decide)
    (by decide) (by decide) (by decide) (by decide) (by decide) (by decide) (by decide)
